import Mathlib

/-!
Verification of the modern_visualization_engine core: a shallow embedding of
the scene graph (`scene_manager.py`), the data pipeline and adaptive LOD
system (`data_pipeline.py`), the shader manager (`shader_manager.py`) and the
renderer / Vulkan backend (`renderer.py`, `vulkan_backend.py`), together with
theorems settling the specification claims about them.

Modelling conventions:
* Python dicts are insertion-ordered association lists (`Dict`), with lookup,
  in-place set, delete and `dict.update` mirroring Python semantics.
* Python object aliasing that matters to the claims (the scene nodes' `data`
  and `material_properties` dicts, shared between the live graph and
  snapshots) is modelled with an explicit heap of dict cells; a node or a
  snapshot entry stores a cell index, and reading resolves the index against
  the current heap.
* numpy float values are modelled as exact rationals; numpy integer index
  arrays as `List Nat`.  Exceptions raised by the Python code are modelled
  with `Except PyErr`.
-/

namespace VisionEngine

/-- A Python dict: insertion-ordered association list with unique keys. -/
abbrev Dict (κ β : Type) := List (κ × β)

/-- Python `d[k]` lookup (as an `Option`): first binding of the key. -/
def dictGet [DecidableEq κ] (d : Dict κ β) (k : κ) : Option β :=
  match d with
  | [] => none
  | (k2, v) :: rest => if k = k2 then some v else dictGet rest k

/-- Python `d[k] = v`: replace the binding in place if the key is present
(preserving insertion order), otherwise append a new binding. -/
def dictSet [DecidableEq κ] (d : Dict κ β) (k : κ) (v : β) : Dict κ β :=
  match d with
  | [] => [(k, v)]
  | (k2, v2) :: rest => if k = k2 then (k2, v) :: rest else (k2, v2) :: dictSet rest k v

/-- Python `del d[k]`: drop the (first) binding of the key. -/
def dictErase [DecidableEq κ] (d : Dict κ β) (k : κ) : Dict κ β :=
  match d with
  | [] => []
  | (k2, v2) :: rest => if k = k2 then rest else (k2, v2) :: dictErase rest k

/-- Python `d.update(new)`: merge the bindings of `new` into `d`. -/
def dictUpdate [DecidableEq κ] (d new : Dict κ β) : Dict κ β :=
  new.foldl (fun acc kv => dictSet acc kv.1 kv.2) d

/-- The key list of a dict, in insertion order. -/
def dictKeys (d : Dict κ β) : List κ := d.map (·.1)

/-! ### Decimal rendering of naturals

The scene graph builds node ids with Python f-strings such as
`f"line_{len(self.nodes)}"`, embedded as `"line_" ++ Nat.repr n`.  To reason
about id freshness we relate `Nat.repr` (which is fuel-based) to the
structurally recursive `reprDigits` and prove injectivity. -/

set_option linter.unusedVariables false in
/-- Structural version of the digit list produced by `Nat.toDigits 10`. -/
def reprDigits (n : Nat) : List Char :=
  if h : n < 10 then [Nat.digitChar n]
  else reprDigits (n / 10) ++ [Nat.digitChar (n % 10)]
termination_by n
decreasing_by
  exact Nat.div_lt_self (Nat.lt_of_lt_of_le (by omega) (Nat.le_of_not_lt h)) (by omega)

/-! ### Data pipeline (`data_pipeline.py`) -/

/-- numpy float values, modelled as exact rationals. -/
abbrev Scalar := ℚ

/-- A row of a `(n, 3)` vertex array. -/
abbrev Vec3 := Scalar × Scalar × Scalar

/-- A row of a `(n, 4)` RGBA color array. -/
abbrev Col4 := Scalar × Scalar × Scalar × Scalar

/-- The payload of a registered buffer: a vertex array, a `uint32` index
array, a 1-d float attribute array, or an RGBA color array. -/
inductive BufData where
  | vecs : List Vec3 → BufData
  | idxs : List Nat → BufData
  | scal : List Scalar → BufData
  | cols : List Col4 → BufData
deriving DecidableEq

/-- `DataBuffer`: wrapper for GPU data buffers (data plus `buffer_type`). -/
structure DataBuffer where
  data : BufData
  buffer_type : String
deriving DecidableEq

/-- `ZeroCopyDataPipeline`: owns the named buffer registry `self.buffers`. -/
structure ZeroCopyDataPipeline where
  buffers : Dict String DataBuffer
deriving DecidableEq

/-- `ZeroCopyDataPipeline.__init__`. -/
def ZeroCopyDataPipeline.init : ZeroCopyDataPipeline := ⟨[]⟩

/-- `ZeroCopyDataPipeline.create_buffer`: build a `DataBuffer` and register it
under `name` (silently overwriting any previous buffer of that name). -/
def ZeroCopyDataPipeline.create_buffer (p : ZeroCopyDataPipeline) (name : String)
    (data : BufData) (buffer_type : String) : ZeroCopyDataPipeline × DataBuffer :=
  let buffer : DataBuffer := ⟨data, buffer_type⟩
  (⟨dictSet p.buffers name buffer⟩, buffer)

/-- `np.arange(0, n, step)` for `step > 0`: the multiples of `step` below `n`. -/
def arange (n step : Nat) : List Nat :=
  (List.range ((n + step - 1) / step)).map (· * step)

/-- numpy fancy indexing `l[is]` (indices assumed in range). -/
def sel (l : List α) (is : List Nat) : List α :=
  is.filterMap (fun i => l.get? i)

/-- Exceptions raised by the embedded Python code. -/
inductive PyErr where
  | valueError (msg : String)
  | attributeError
  | runtimeError (msg : String)
deriving DecidableEq

/-- `AdaptiveLODSystem` instance state (the `lod_thresholds` dict; note the
source's `simplify_line` does not read it — its target of 10000 is inlined). -/
structure AdaptiveLODSystem where
  lod_thresholds : Dict String Nat
deriving DecidableEq

/-- `AdaptiveLODSystem.__init__`. -/
def AdaptiveLODSystem.init : AdaptiveLODSystem :=
  ⟨[("line_simplification", 10000), ("scatter_sampling", 50000), ("max_detail_distance", 100)]⟩

/-- `AdaptiveLODSystem.simplify_line` (the method ignores instance state):
for `method = "radial_distance"` and more than two vertices, sample every
`step`-th vertex with `step = max(1, n // 10000)`, force-include the last
index if missing, and renumber the index buffer `0..m-1`. -/
def AdaptiveLODSystem.simplify_line (vertices : List α) (indices : List Nat)
    (method : String) : List α × List Nat :=
  if method = "radial_distance" then
    if vertices.length ≤ 2 then (vertices, indices)
    else
      let step := max 1 (vertices.length / 10000)
      let sampled := arange vertices.length step
      let sampled :=
        if sampled.getLast? = some (vertices.length - 1) then sampled
        else sampled ++ [vertices.length - 1]
      let simplified_vertices := sel vertices sampled
      (simplified_vertices, List.range simplified_vertices.length)
  else (vertices, indices)

/-- The dictionary returned by `DataPipeline.process_line_data`. -/
structure LineResult where
  vertices : DataBuffer
  indices : DataBuffer
  primitive_type : String
  count : Nat
deriving DecidableEq

/-- The dictionary returned by `DataPipeline.process_scatter_data`. -/
structure ScatterResult where
  vertices : DataBuffer
  sizes : DataBuffer
  colors : DataBuffer
  primitive_type : String
  count : Nat
deriving DecidableEq

/-- `DataPipeline` state: the zero-copy registry and the LOD system. -/
structure DataPipeline where
  zero_copy_pipeline : ZeroCopyDataPipeline
  lod_system : AdaptiveLODSystem
deriving DecidableEq

/-- `DataPipeline.__init__`. -/
def DataPipeline.init : DataPipeline := ⟨ZeroCopyDataPipeline.init, AdaptiveLODSystem.init⟩

/-- `DataPipeline.process_line_data`: validate, build `(x_i, y_i, 0)` vertices
and `0..n-1` indices, simplify when `n > 10000`, then register the buffers
under the fixed names `"line_vertices"` / `"line_indices"`. -/
def DataPipeline.process_line_data (dp : DataPipeline) (x y : List Scalar) :
    Except PyErr (DataPipeline × LineResult) :=
  if x.length ≠ y.length then
    .error (.valueError "x and y arrays must have the same length")
  else
    let vertices := List.zipWith (fun a b => ((a, b, 0) : Vec3)) x y
    let n_points := vertices.length
    if n_points < 2 then .error (.valueError "Line plot requires at least 2 points")
    else
      let indices := List.range n_points
      let (vertices, indices) :=
        if n_points > 10000 then
          AdaptiveLODSystem.simplify_line vertices indices "radial_distance"
        else (vertices, indices)
      let (zcp, vertex_buffer) :=
        dp.zero_copy_pipeline.create_buffer "line_vertices" (.vecs vertices) "vertex"
      let (zcp, index_buffer) :=
        zcp.create_buffer "line_indices" (.idxs indices) "index"
      .ok ({ dp with zero_copy_pipeline := zcp },
        { vertices := vertex_buffer, indices := index_buffer,
          primitive_type := "line_strip", count := indices.length })

/-- The optional `s` argument of `process_scatter_data`: absent, a scalar, or
a size array. -/
inductive SizeArg where
  | noSize
  | scalar (v : Scalar)
  | arr (l : List Scalar)
deriving DecidableEq

/-- The optional `c` argument of `process_scatter_data`: absent, a 1-d
grayscale array, an `(n,3)` RGB array, or an `(n,4)` RGBA array. -/
inductive ColorArg where
  | noColor
  | gray (l : List Scalar)
  | rgb (l : List (Scalar × Scalar × Scalar))
  | rgba (l : List Col4)
deriving DecidableEq

/-- The size array built by `process_scatter_data` before LOD: default 10.0,
a broadcast scalar, or the given array. -/
def normSizes (n : Nat) (s : SizeArg) : List Scalar :=
  match s with
  | .noSize => List.replicate n 10
  | .scalar v => List.replicate n v
  | .arr l => l

/-- The default point color `[0.2, 0.6, 1.0, 1.0]`. -/
def defaultColor : Col4 := (2/10, 6/10, 1, 1)

/-- The RGBA color array built by `process_scatter_data` before LOD:
default blue, grayscale replicated across RGB with alpha 1, RGB with alpha 1
appended, or RGBA passed through. -/
def normColors (n : Nat) (c : ColorArg) : List Col4 :=
  match c with
  | .noColor => List.replicate n defaultColor
  | .gray l => l.map (fun v => ((v, v, v, 1) : Col4))
  | .rgb l => l.map (fun v => ((v.1, v.2.1, v.2.2, 1) : Col4))
  | .rgba l => l

/-- The check `c is not None and len(c) != n_points` of
`process_scatter_data`. -/
def colorLenBad (c : ColorArg) (n_points : Nat) : Bool :=
  match c with
  | .noColor => false
  | .gray l => l.length != n_points
  | .rgb l => l.length != n_points
  | .rgba l => l.length != n_points

/-- The check `isinstance(s, np.ndarray) and len(s) != n_points` of
`process_scatter_data`. -/
def sizeLenBad (s : SizeArg) (n_points : Nat) : Bool :=
  match s with
  | .arr l => l.length != n_points
  | _ => false

/-- `DataPipeline.process_scatter_data`: validate lengths, normalize sizes and
colors, subsample all three arrays by the same stride mask when
`n > 50000`, then register `"scatter_vertices"` / `"scatter_sizes"` /
`"scatter_colors"`. -/
def DataPipeline.process_scatter_data (dp : DataPipeline) (x y : List Scalar)
    (c : ColorArg) (s : SizeArg) : Except PyErr (DataPipeline × ScatterResult) :=
  let n_points := x.length
  if y.length ≠ n_points then
    .error (.valueError "x and y arrays must have the same length")
  else
    if colorLenBad c n_points then
      .error (.valueError "Color array must have same length as x/y arrays")
    else
      if sizeLenBad s n_points then
        .error (.valueError "Size array must have same length as x/y arrays")
      else
        let vertices := List.zipWith (fun a b => ((a, b, 0) : Vec3)) x y
        let sizes := normSizes n_points s
        let colors := normColors n_points c
        let (vertices, sizes, colors) :=
          if n_points > 50000 then
            let step := max 1 (n_points / 50000)
            let mask := arange n_points step
            (sel vertices mask,
             if sizes.length > mask.length then sel sizes mask else sizes,
             if colors.length > mask.length then sel colors mask else colors)
          else (vertices, sizes, colors)
        let (zcp, vertex_buffer) :=
          dp.zero_copy_pipeline.create_buffer "scatter_vertices" (.vecs vertices) "vertex"
        let (zcp, size_buffer) :=
          zcp.create_buffer "scatter_sizes" (.scal sizes) "attribute"
        let (zcp, color_buffer) :=
          zcp.create_buffer "scatter_colors" (.cols colors) "attribute"
        .ok ({ dp with zero_copy_pipeline := zcp },
          { vertices := vertex_buffer, sizes := size_buffer, colors := color_buffer,
            primitive_type := "points", count := vertices.length })

/-! ### Scene graph (`scene_manager.py`)

`SceneNode` / `GeometryNode` objects form a graph of mutable Python objects;
the `data` and `material_properties` dicts of a `GeometryNode` are mutable
objects shared by reference with snapshots, so they live in an explicit heap
of dict cells (`SceneManager.heap`), and nodes store cell indices. -/

/-- A scene payload / material / camera dict (values opaque). -/
abbrev Data := Dict String Int

/-- `np.eye(4).tolist()`. -/
def eye4 : List (List Int) :=
  [[1, 0, 0, 0], [0, 1, 0, 0], [0, 0, 1, 0], [0, 0, 0, 1]]

/-- A `SceneNode` / `GeometryNode` object.  A plain `SceneNode` (such as the
root) has `dataCell = none` and `matCell = none`: it has no `data` /
`material_properties` attributes at all. -/
structure PyNode where
  node_id : String
  node_type : String
  children : List String
  parent : Option String
  visible : Bool
  transform : List (List Int)
  geometry_type : Option String
  dataCell : Option Nat
  matCell : Option Nat
deriving DecidableEq

/-- The root `SceneNode("root", "root")`. -/
def rootNode : PyNode :=
  { node_id := "root", node_type := "root", children := [], parent := none,
    visible := true, transform := eye4, geometry_type := none,
    dataCell := none, matCell := none }

/-- `SceneManager` state: the heap of shared dict cells, the id-to-node map,
and the camera / lighting settings. -/
structure SceneManager where
  heap : List Data
  nodes : Dict String PyNode
  camera_settings : Data
  lighting_settings : Data
deriving DecidableEq

/-- `SceneManager.__init__`. -/
def SceneManager.init : SceneManager :=
  { heap := [], nodes := [("root", rootNode)], camera_settings := [], lighting_settings := [] }

/-- Shared body of the four `add_*` methods: the id is
`f"{prefix}_{len(self.nodes)}"`, the new `GeometryNode` gets fresh heap cells
for `data` and `material_properties` (the latter `{}` updated with the
kwargs), is appended to the root's children, and is inserted into the map. -/
def SceneManager.addGeometry (m : SceneManager) (pre geometry_type : String)
    (data kwargs : Data) : SceneManager × String :=
  let node_id := pre ++ "_" ++ Nat.repr m.nodes.length
  let node : PyNode :=
    { node_id := node_id, node_type := "geometry", children := [], parent := some "root",
      visible := true, transform := eye4, geometry_type := some geometry_type,
      dataCell := some m.heap.length, matCell := some (m.heap.length + 1) }
  let nodes1 := match dictGet m.nodes "root" with
    | some rn => dictSet m.nodes "root" { rn with children := rn.children ++ [node_id] }
    | none => m.nodes
  ({ m with heap := m.heap ++ [data, dictUpdate [] kwargs],
            nodes := dictSet nodes1 node_id node }, node_id)

/-- `SceneManager.add_line`. -/
def SceneManager.add_line (m : SceneManager) (data kwargs : Data) : SceneManager × String :=
  m.addGeometry "line" "line" data kwargs

/-- `SceneManager.add_scatter`. -/
def SceneManager.add_scatter (m : SceneManager) (data kwargs : Data) : SceneManager × String :=
  m.addGeometry "scatter" "scatter" data kwargs

/-- `SceneManager.add_bar`. -/
def SceneManager.add_bar (m : SceneManager) (data kwargs : Data) : SceneManager × String :=
  m.addGeometry "bar" "bar" data kwargs

/-- `SceneManager.add_histogram`. -/
def SceneManager.add_histogram (m : SceneManager) (data kwargs : Data) : SceneManager × String :=
  m.addGeometry "histogram" "histogram" data kwargs

/-- `SceneManager.update_node`: merge `data` into `node.data` (mutating the
shared heap cell) and return `True`; return `False` for an unknown id; raise
`AttributeError` when the node has no `data` attribute (e.g. the root). -/
def SceneManager.update_node (m : SceneManager) (node_id : String) (data : Data) :
    Except PyErr (SceneManager × Bool) :=
  match dictGet m.nodes node_id with
  | some node =>
    match node.dataCell with
    | some c =>
      .ok ({ m with heap := m.heap.set c (dictUpdate ((m.heap.get? c).getD []) data) }, true)
    | none => .error .attributeError
  | none => .ok (m, false)

/-- `SceneManager.remove_node`: for a known non-root id, detach the node from
its parent's child list and delete it from the map, returning `True`;
otherwise return `False`. -/
def SceneManager.remove_node (m : SceneManager) (node_id : String) : SceneManager × Bool :=
  if (dictGet m.nodes node_id).isSome && node_id != "root" then
    match dictGet m.nodes node_id with
    | some node =>
      let nodes1 := match node.parent with
        | some p =>
          match dictGet m.nodes p with
          | some pn => dictSet m.nodes p { pn with children := pn.children.erase node_id }
          | none => m.nodes
        | none => m.nodes
      ({ m with nodes := dictErase nodes1 node_id }, true)
    | none => (m, false)
  else (m, false)

/-- A per-node entry of the dict returned by `get_scene`.  `dataRef` /
`matRef` are the references stored by `getattr(node, 'data', {})` /
`getattr(node, 'material_properties', {})`: for a geometry node they alias
the live node's dict cells; `none` stands for the fresh `{}` default.
`transform` (via `.tolist()`) and `visible` are copied by value. -/
structure SnapNode where
  type : String
  geometry_type : Option String
  dataRef : Option Nat
  matRef : Option Nat
  transform : List (List Int)
  visible : Bool
deriving DecidableEq

/-- The `get_scene` entry for one node. -/
def snapOf (n : PyNode) : SnapNode :=
  { type := n.node_type, geometry_type := n.geometry_type, dataRef := n.dataCell,
    matRef := n.matCell, transform := n.transform, visible := n.visible }

/-- The dict returned by `SceneManager.get_scene`. -/
structure SceneDict where
  nodes : Dict String SnapNode
  camera : Data
  lighting : Data
deriving DecidableEq

/-- `SceneManager.get_scene`: one entry per non-root node. -/
def SceneManager.get_scene (m : SceneManager) : SceneDict :=
  { nodes := (m.nodes.filter (fun e => e.1 != "root")).map (fun e => (e.1, snapOf e.2)),
    camera := m.camera_settings, lighting := m.lighting_settings }

/-- Dereference a stored dict reference against the current heap (`none` is
the fresh `{}` default of `getattr`). -/
def readRef (heap : List Data) (r : Option Nat) : Data :=
  match r with
  | some c => (heap.get? c).getD []
  | none => []

/-- The observable contents of one snapshot entry, with the aliased dict
references resolved against the current heap. -/
structure NodeReading where
  type : String
  geometry_type : Option String
  data : Data
  material_properties : Data
  transform : List (List Int)
  visible : Bool
deriving DecidableEq

/-- Resolve one snapshot entry against a heap. -/
def readSnapNode (heap : List Data) (sn : SnapNode) : NodeReading :=
  { type := sn.type, geometry_type := sn.geometry_type, data := readRef heap sn.dataRef,
    material_properties := readRef heap sn.matRef, transform := sn.transform,
    visible := sn.visible }

/-- The observable contents of a whole snapshot under the current heap. -/
def readScene (heap : List Data) (s : SceneDict) : Dict String NodeReading :=
  s.nodes.map (fun e => (e.1, readSnapNode heap e.2))

/-! ### Shader manager (`shader_manager.py`) -/

/-- A compiled `ShaderProgram` (vertex and fragment source). -/
structure ShaderProgram where
  vertex_shader : String
  fragment_shader : String
deriving DecidableEq

/-- Default line vertex shader. -/
def lineVertexShader : String :=
  "\n#version 450\nlayout(location = 0) in vec3 position;\n\nvoid main() \x7b\n    gl_Position = vec4(position, 1.0);\n\x7d\n"

/-- Default line fragment shader. -/
def lineFragmentShader : String :=
  "\n#version 450\nlayout(location = 0) out vec4 fragColor;\n\nvoid main() \x7b\n    fragColor = vec4(0.2, 0.6, 1.0, 1.0);\n\x7d\n"

/-- Default scatter vertex shader. -/
def scatterVertexShader : String :=
  "\n#version 450\nlayout(location = 0) in vec3 position;\nlayout(location = 1) in float pointSize;\nlayout(location = 2) in vec4 color;\n\nout vec4 fragColor;\n\nvoid main() \x7b\n    gl_Position = vec4(position, 1.0);\n    gl_PointSize = pointSize;\n    fragColor = color;\n\x7d\n"

/-- Default scatter fragment shader. -/
def scatterFragmentShader : String :=
  "\n#version 450\nin vec4 fragColor;\nlayout(location = 0) out vec4 outColor;\n\nvoid main() \x7b\n    outColor = fragColor;\n\x7d\n"

/-- Default bar vertex shader. -/
def barVertexShader : String :=
  "\n#version 450\nlayout(location = 0) in vec3 position;\n\nvoid main() \x7b\n    gl_Position = vec4(position, 1.0);\n\x7d\n"

/-- Default bar fragment shader. -/
def barFragmentShader : String :=
  "\n#version 450\nlayout(location = 0) out vec4 fragColor;\n\nvoid main() \x7b\n    fragColor = vec4(0.8, 0.4, 0.2, 1.0);\n\x7d\n"

/-- Default point-cloud vertex shader. -/
def pointVertexShader : String :=
  "\n#version 450\nlayout(location = 0) in vec3 position;\nlayout(location = 1) in float pointSize;\nlayout(location = 2) in vec4 color;\n\nout vec4 fragColor;\n\nvoid main() \x7b\n    gl_Position = vec4(position, 1.0);\n    gl_PointSize = pointSize;\n    fragColor = color;\n\x7d\n"

/-- Default point-cloud fragment shader. -/
def pointFragmentShader : String :=
  "\n#version 450\nin vec4 fragColor;\nlayout(location = 0) out vec4 outColor;\n\nvoid main() \x7b\n    outColor = fragColor;\n\x7d\n"

/-- Default UI vertex shader. -/
def uiVertexShader : String :=
  "\n#version 450\nlayout(location = 0) in vec2 position;\nlayout(location = 1) in vec2 texCoord;\n\nout vec2 vTexCoord;\n\nvoid main() \x7b\n    gl_Position = vec4(position, 0.0, 1.0);\n    vTexCoord = texCoord;\n\x7d\n"

/-- Default UI fragment shader. -/
def uiFragmentShader : String :=
  "\n#version 450\nin vec2 vTexCoord;\nlayout(location = 0) out vec4 fragColor;\n\nvoid main() \x7b\n    fragColor = vec4(1.0, 1.0, 1.0, 1.0);\n\x7d\n"

/-- `ShaderManager._load_default_shaders`: (vertex, fragment) per kind. -/
def loadDefaultShaders : Dict String (String × String) :=
  [("line", (lineVertexShader, lineFragmentShader)),
   ("scatter", (scatterVertexShader, scatterFragmentShader)),
   ("bar", (barVertexShader, barFragmentShader)),
   ("point", (pointVertexShader, pointFragmentShader)),
   ("ui_element", (uiVertexShader, uiFragmentShader))]

/-- Material properties dict (property name to opaque value). -/
abbrev MatProps := Dict String Int

/-- Python `pat in s` substring test. -/
def strContains (s pat : String) : Bool :=
  decide (1 < (s.splitOn pat).length)

/-- `ShaderManager._customize_shader_with_material`: splice `materialColor` /
`opacity` uniforms into the fragment shader when the corresponding property
is present (the value interpolated by the source's f-string is abstracted by
`toString`). -/
def customizeShaderWithMaterial (vs fs : String) (props : MatProps) : String × String :=
  let fs1 :=
    if (dictGet props "color").isSome then
      if strContains fs "uniform vec4 materialColor;" then fs
      else
        "#version 450\nuniform vec4 materialColor;\n" ++
          ((fs.replace "void main() \x7b" "void main() \x7b\n    vec4 baseColor = materialColor;").replace
            "fragColor =" "fragColor = baseColor * ")
    else fs
  let fs2 :=
    if (dictGet props "opacity").isSome then
      if strContains fs1 "uniform float opacity;" then fs1
      else
        "#version 450\nuniform float opacity;\n" ++
          (fs1.replace "fragColor ="
            ("fragColor = vec4(" ++
              (match dictGet props "color" with
               | some v => toString v
               | none => "1.0, 1.0, 1.0") ++ ", opacity) * "))
    else fs1
  (vs, fs2)

/-- The canonical form of the material properties used in the cache key:
`sorted(material_properties.items())` (with unique keys this sorts by
property name). -/
def canonicalItems (props : MatProps) : List (String × Int) :=
  List.insertionSort (fun a b => a.1 ≤ b.1) props

/-- The cache key `f"{geometry_type}_{hash(str(sorted(...)))}"`, with the
injective encoding `hash(str(·))` of the sorted item list abstracted by the
list itself (`None` renders as `"None"`). -/
def shaderCacheKey (geometry_type : Option String) (props : MatProps) :
    String × List (String × Int) :=
  ((match geometry_type with | some s => s | none => "None"), canonicalItems props)

/-- `ShaderManager` state.  Python object identity of the cached
`ShaderProgram` objects is modelled by numbering them: `programs` is the
object store and the cache maps keys to object numbers. -/
structure ShaderManager where
  shader_cache : Dict (String × List (String × Int)) Nat
  programs : Dict Nat ShaderProgram
  next_id : Nat
  default_shaders : Dict String (String × String)
deriving DecidableEq

/-- `ShaderManager.__init__`. -/
def ShaderManager.init : ShaderManager :=
  { shader_cache := [], programs := [], next_id := 0, default_shaders := loadDefaultShaders }

/-- `ShaderManager.get_shader_for_geometry`: return the cached program for
the key if present; otherwise pick the base shaders for the kind (falling
back to `"point"`), customize them, and cache a freshly created program. -/
def ShaderManager.get_shader_for_geometry (sm : ShaderManager)
    (geometry_type : Option String) (props : MatProps) : ShaderManager × Nat :=
  let key := shaderCacheKey geometry_type props
  match dictGet sm.shader_cache key with
  | some pid => (sm, pid)
  | none =>
    let base := match geometry_type with
      | some g =>
        match dictGet sm.default_shaders g with
        | some p => p
        | none => (dictGet sm.default_shaders "point").getD ("", "")
      | none => (dictGet sm.default_shaders "point").getD ("", "")
    let (vs, fs) := customizeShaderWithMaterial base.1 base.2 props
    let pid := sm.next_id
    ({ sm with shader_cache := dictSet sm.shader_cache key pid,
               programs := dictSet sm.programs pid ⟨vs, fs⟩,
               next_id := pid + 1 }, pid)

/-! ### Renderer and Vulkan backend (`renderer.py`, `vulkan_backend.py`) -/

/-- A node of the prepared scene built by `Renderer._prepare_scene`. -/
structure PreparedNode where
  id : String
  type : String
  geometry_type : Option String
  data : Data
  material_properties : MatProps
  transform : List (List Int)
  visible : Bool
  shader : Nat
deriving DecidableEq

/-- The prepared scene handed to the backend. -/
structure PreparedScene where
  nodes : Dict String PreparedNode
  camera : Data
  lighting : Data
  viewport_size : Nat × Nat
deriving DecidableEq

/-- The per-node loop of `Renderer._prepare_scene`, threading the shader
manager through the shader lookups (`_process_node_data` passes the opaque
payload values through unchanged). -/
def prepareNodes (sm : ShaderManager) (heap : List Data)
    (nodes : Dict String SnapNode) : ShaderManager × Dict String PreparedNode :=
  match nodes with
  | [] => (sm, [])
  | (nid, nd) :: rest =>
    let material_props := readRef heap nd.matRef
    let (sm1, shader_program) := sm.get_shader_for_geometry nd.geometry_type material_props
    let processed : PreparedNode :=
      { id := nid, type := nd.type, geometry_type := nd.geometry_type,
        data := readRef heap nd.dataRef, material_properties := material_props,
        transform := nd.transform, visible := nd.visible, shader := shader_program }
    let (sm2, prest) := prepareNodes sm1 heap rest
    (sm2, (nid, processed) :: prest)

/-- `Renderer._prepare_scene`: every node of the scene dict is processed and
included in the prepared scene (its `visible` flag is merely copied). -/
def prepareScene (sm : ShaderManager) (heap : List Data) (scene : SceneDict)
    (viewport_size : Nat × Nat) : ShaderManager × PreparedScene :=
  let (sm1, processed_nodes) := prepareNodes sm heap scene.nodes
  (sm1, { nodes := processed_nodes, camera := scene.camera, lighting := scene.lighting,
          viewport_size := viewport_size })

/-- `VulkanBackend` state. -/
structure VulkanBackend where
  is_initialized : Bool
deriving DecidableEq

/-- `VulkanBackend.__init__`. -/
def VulkanBackend.init : VulkanBackend := ⟨false⟩

/-- `VulkanBackend.initialize` (named `startup` here): marks the backend
initialized. -/
def VulkanBackend.startup (_b : VulkanBackend) : VulkanBackend := ⟨true⟩

/-- `VulkanBackend.render`: raise `RuntimeError` when not initialized,
otherwise process exactly the visible nodes of the prepared scene (returning
the ids the draw loop handles, in order). -/
def VulkanBackend.render (b : VulkanBackend) (scene : PreparedScene) :
    Except PyErr (List String) :=
  if ¬ b.is_initialized then .error (.runtimeError "Vulkan backend not initialized")
  else .ok ((scene.nodes.filter (fun e => e.2.visible)).map (·.1))

/-- `Renderer` state (with the Vulkan backend selected). -/
structure Renderer where
  backend : VulkanBackend
  shader_manager : ShaderManager
  is_initialized : Bool
  viewport_size : Nat × Nat
deriving DecidableEq

/-- `Renderer.__init__` (backend `"vulkan"` or the `"auto"` default). -/
def Renderer.init : Renderer :=
  { backend := VulkanBackend.init, shader_manager := ShaderManager.init,
    is_initialized := false, viewport_size := (800, 600) }

/-- `Renderer.initialize` (named `startup` here): initialize the backend once. -/
def Renderer.startup (r : Renderer) : Renderer :=
  if r.is_initialized then r
  else { r with backend := r.backend.startup, is_initialized := true }

/-- `Renderer.render`: auto-initialize when needed, prepare the scene, then
render through the backend; returns the new renderer state and the list of
node ids the backend's draw loop processed. -/
def Renderer.render (r : Renderer) (heap : List Data) (scene : SceneDict) :
    Except PyErr (Renderer × List String) :=
  let r1 := if ¬ r.is_initialized then r.startup else r
  let (sm, prepared_scene) := prepareScene r1.shader_manager heap scene r1.viewport_size
  match r1.backend.render prepared_scene with
  | .ok drawn => .ok ({ r1 with shader_manager := sm }, drawn)
  | .error e => .error e

/-! ### Test scaffolding definitions -/

/-- Run a sequence of `add_line` calls, collecting the returned node ids. -/
def addLines (m : SceneManager) (ps : List (Data × Data)) : SceneManager × List String :=
  match ps with
  | [] => (m, [])
  | (d, kw) :: rest =>
    let r1 := m.add_line d kw
    let r2 := addLines r1.1 rest
    (r2.1, r1.2 :: r2.2)

/-- Well-formedness of a shader manager: every cached program number refers
to a stored program object. -/
def ShaderManagerWF (sm : ShaderManager) : Prop :=
  ∀ k pid, dictGet sm.shader_cache k = some pid → (dictGet sm.programs pid).isSome

/-- The length constraint `process_scatter_data` checks for the optional
color argument. -/
def ColorArg.lengthOk (c : ColorArg) (n : Nat) : Prop :=
  match c with
  | .noColor => True
  | .gray l => l.length = n
  | .rgb l => l.length = n
  | .rgba l => l.length = n

/-- The length constraint `process_scatter_data` checks for the optional
size argument. -/
def SizeArg.lengthOk (s : SizeArg) (n : Nat) : Prop :=
  match s with
  | .arr l => l.length = n
  | _ => True

/-- Extract the scene manager from a successful `update_node` result. -/
def okState (e : Except PyErr (SceneManager × Bool)) : SceneManager :=
  match e with
  | .ok (m, _) => m
  | .error _ => SceneManager.init

/-- A snapshot entry for an invisible line node (test input). -/
def invisibleSnapNode : SnapNode :=
  { type := "geometry", geometry_type := some "line", dataRef := none,
    matRef := none, transform := eye4, visible := false }

/-- A one-node scene dict whose only node is invisible (test input). -/
def invisibleScene : SceneDict :=
  { nodes := [("line_1", invisibleSnapNode)], camera := [], lighting := [] }

/-- The prepared node that `_prepare_scene` builds for `invisibleScene`'s
node when starting from a fresh shader manager. -/
def invisiblePreparedNode : PreparedNode :=
  { id := "line_1", type := "geometry", geometry_type := some "line",
    data := [], material_properties := [], transform := eye4, visible := false,
    shader := 0 }

/-- An empty scene dict (test input). -/
def emptySceneDict : SceneDict :=
  { nodes := [], camera := [], lighting := [] }

/-- An empty prepared scene (test input). -/
def emptyPreparedScene : PreparedScene :=
  { nodes := [], camera := [], lighting := [], viewport_size := (800, 600) }

/-- A 50001-element coordinate array (test input above the scatter
threshold). -/
def bigX : List Scalar := List.replicate 50001 0

/-- A 50001-element size array (test input). -/
def bigSizes : SizeArg := .arr (List.replicate 50001 1)

/-- A 50001-row RGBA color array (test input). -/
def bigColors : ColorArg := .rgba (List.replicate 50001 (1, 1, 1, 1))

instance : IsTotal (String × Int) (fun a b => a.1 ≤ b.1) :=
  ⟨fun a b => le_total a.1 b.1⟩

instance : IsTrans (String × Int) (fun a b => a.1 ≤ b.1) :=
  ⟨fun _ _ _ h1 h2 => le_trans h1 h2⟩

instance : IsAntisymm (String × Int) (fun a b => a.1 < b.1) :=
  ⟨fun _ _ h1 h2 => absurd h1 (lt_asymm h2)⟩

/-! ## Dictionary lemmas -/

theorem dictGet_dictSet_self [DecidableEq κ] (d : Dict κ β) (k : κ) (v : β) :
    dictGet (dictSet d k v) k = some v := by
  induction d with
  | nil => simp [dictSet, dictGet]
  | cons hd tl ih =>
    obtain ⟨k2, v2⟩ := hd
    by_cases h : k = k2 <;> simp [dictSet, dictGet, h, ih]

theorem dictGet_dictSet_ne [DecidableEq κ] (d : Dict κ β) (k k2 : κ) (v : β)
    (h : k2 ≠ k) : dictGet (dictSet d k v) k2 = dictGet d k2 := by
  induction d with
  | nil => simp [dictSet, dictGet, h]
  | cons hd tl ih =>
    obtain ⟨k3, v3⟩ := hd
    by_cases h3 : k = k3
    · subst h3; simp [dictSet, dictGet, h]
    · by_cases h4 : k2 = k3 <;> simp [dictSet, dictGet, h3, h4, ih]

theorem dictGet_eq_none_iff [DecidableEq κ] (d : Dict κ β) (k : κ) :
    dictGet d k = none ↔ k ∉ dictKeys d := by
  induction d with
  | nil => simp [dictGet, dictKeys]
  | cons hd tl ih =>
    obtain ⟨k2, v2⟩ := hd
    by_cases h : k = k2 <;> simp [dictGet, dictKeys, h, ih]

theorem dictKeys_dictSet_of_isSome [DecidableEq κ] (d : Dict κ β) (k : κ) (v : β)
    (h : (dictGet d k).isSome) : dictKeys (dictSet d k v) = dictKeys d := by
  induction d with
  | nil => simp [dictGet] at h
  | cons hd tl ih =>
    obtain ⟨k2, v2⟩ := hd
    by_cases h2 : k = k2
    · simp [dictSet, dictKeys, h2]
    · simp [dictGet, h2] at h
      rw [show dictSet ((k2, v2) :: tl) k v = (k2, v2) :: dictSet tl k v from by
        simp [dictSet, h2]]
      show k2 :: dictKeys (dictSet tl k v) = k2 :: dictKeys tl
      rw [ih h]

theorem dictKeys_dictSet_of_none [DecidableEq κ] (d : Dict κ β) (k : κ) (v : β)
    (h : dictGet d k = none) : dictKeys (dictSet d k v) = dictKeys d ++ [k] := by
  induction d with
  | nil => simp [dictSet, dictKeys]
  | cons hd tl ih =>
    obtain ⟨k2, v2⟩ := hd
    by_cases h2 : k = k2
    · simp [dictGet, h2] at h
    · simp [dictGet, h2] at h
      rw [show dictSet ((k2, v2) :: tl) k v = (k2, v2) :: dictSet tl k v from by
        simp [dictSet, h2]]
      show k2 :: dictKeys (dictSet tl k v) = (k2 :: dictKeys tl) ++ [k]
      rw [ih h]
      simp

theorem dictGet_dictErase_self [DecidableEq κ] (d : Dict κ β) (k : κ)
    (h : (dictKeys d).Nodup) : dictGet (dictErase d k) k = none := by
  induction d with
  | nil => simp [dictErase, dictGet]
  | cons hd tl ih =>
    obtain ⟨k2, v2⟩ := hd
    simp [dictKeys] at h
    by_cases h2 : k = k2
    · subst h2
      simp [dictErase]
      exact (dictGet_eq_none_iff tl k).2 (by simpa [dictKeys] using h.1)
    · simp [dictErase, dictGet, h2, ih h.2]

theorem dictGet_dictErase_ne [DecidableEq κ] (d : Dict κ β) (k k2 : κ)
    (h : k2 ≠ k) : dictGet (dictErase d k) k2 = dictGet d k2 := by
  induction d with
  | nil => simp [dictErase]
  | cons hd tl ih =>
    obtain ⟨k3, v3⟩ := hd
    by_cases h3 : k = k3
    · subst h3; simp [dictErase, dictGet, h]
    · by_cases h4 : k2 = k3 <;> simp [dictErase, dictGet, h3, h4, ih]

/-- Looking a non-root id up in the node dict produced by `get_scene`. -/
theorem dictGet_snapNodes (d : Dict String PyNode) (id : String) (h : id ≠ "root") :
    dictGet ((d.filter (fun e => e.1 != "root")).map (fun e => (e.1, snapOf e.2))) id
      = (dictGet d id).map snapOf := by
  induction d with
  | nil => simp [dictGet]
  | cons hd tl ih =>
    obtain ⟨k2, v2⟩ := hd
    by_cases hr : k2 = "root"
    · subst hr
      have : id ≠ "root" := h
      simp [dictGet, this, ih]
    · by_cases h2 : id = k2 <;> simp [dictGet, hr, h2, ih]

/-! ## Injectivity of the decimal id suffix -/

theorem digitChar_inj (m n : Nat) (hm : m < 10) (hn : n < 10)
    (h : Nat.digitChar m = Nat.digitChar n) : m = n := by
  interval_cases m <;> interval_cases n <;> revert h <;> decide

theorem reprDigits_ne_nil (n : Nat) : reprDigits n ≠ [] := by
  rw [reprDigits]
  by_cases h : n < 10 <;> simp [h]

theorem reprDigits_lt (n : Nat) (h : n < 10) : reprDigits n = [Nat.digitChar n] := by
  rw [reprDigits]; simp [h]

theorem reprDigits_ge (n : Nat) (h : ¬ n < 10) :
    reprDigits n = reprDigits (n / 10) ++ [Nat.digitChar (n % 10)] := by
  rw [reprDigits]; simp [h]

theorem reprDigits_length_pos (n : Nat) : 1 ≤ (reprDigits n).length := by
  cases hc : reprDigits n with
  | nil => exact absurd hc (reprDigits_ne_nil n)
  | cons a l => simp

theorem toDigitsCore_eq (fuel n : Nat) (ds : List Char) (h : n < fuel) :
    Nat.toDigitsCore 10 fuel n ds = reprDigits n ++ ds := by
  induction fuel generalizing n ds with
  | zero => omega
  | succ f ih =>
    by_cases h10 : n < 10
    · have hdiv : n / 10 = 0 := Nat.div_eq_of_lt h10
      have hmod : n % 10 = n := Nat.mod_eq_of_lt h10
      rw [Nat.toDigitsCore, reprDigits_lt n h10]
      simp [hdiv, hmod]
    · have hne : n / 10 ≠ 0 := by
        intro hz
        rw [Nat.div_eq_zero_iff (by omega)] at hz
        omega
      have hlt : n / 10 < f := by
        have h1 : n / 10 < n := Nat.div_lt_self (by omega) (by omega)
        omega
      rw [Nat.toDigitsCore]
      simp only [hne, if_false]
      rw [ih _ _ hlt, reprDigits_ge n h10]
      simp [List.append_assoc]

theorem reprDigits_inj (m : Nat) : ∀ n, reprDigits m = reprDigits n → m = n := by
  induction m using Nat.strong_induction_on with
  | _ m ih =>
    intro n h
    by_cases hm : m < 10 <;> by_cases hn : n < 10
    · rw [reprDigits_lt m hm, reprDigits_lt n hn] at h
      simp at h
      exact digitChar_inj m n hm hn h
    · exfalso
      rw [reprDigits_lt m hm, reprDigits_ge n hn] at h
      have hlen := congrArg List.length h
      rw [List.length_append] at hlen
      simp only [List.length_singleton] at hlen
      have := reprDigits_length_pos (n / 10)
      omega
    · exfalso
      rw [reprDigits_ge m hm, reprDigits_lt n hn] at h
      have hlen := congrArg List.length h
      rw [List.length_append] at hlen
      simp only [List.length_singleton] at hlen
      have := reprDigits_length_pos (m / 10)
      omega
    · rw [reprDigits_ge m hm, reprDigits_ge n hn] at h
      obtain ⟨h1, h2⟩ := List.append_inj' h (by simp)
      simp at h2
      have hdiv : m / 10 = n / 10 :=
        ih (m / 10) (Nat.div_lt_self (by omega) (by omega)) (n / 10) h1
      have hmod : m % 10 = n % 10 :=
        digitChar_inj _ _ (Nat.mod_lt _ (by omega)) (Nat.mod_lt _ (by omega)) h2
      omega

theorem natRepr_data (n : Nat) : (Nat.repr n).data = reprDigits n := by
  show (Nat.toDigits 10 n).asString.data = reprDigits n
  have : Nat.toDigits 10 n = reprDigits n ++ [] :=
    toDigitsCore_eq (n + 1) n [] (Nat.lt_succ_self n)
  simp at this
  simp [List.asString, this]

theorem natRepr_inj (m n : Nat) (h : Nat.repr m = Nat.repr n) : m = n := by
  have hd : (Nat.repr m).data = (Nat.repr n).data := congrArg String.data h
  rw [natRepr_data, natRepr_data] at hd
  exact reprDigits_inj m n hd

theorem string_data_append (s t : String) : (s ++ t).data = s.data ++ t.data := by
  cases s; cases t; rfl

theorem geom_id_inj (pre : String) (a b : Nat)
    (h : pre ++ "_" ++ Nat.repr a = pre ++ "_" ++ Nat.repr b) : a = b := by
  have hd := congrArg String.data h
  rw [string_data_append, string_data_append, string_data_append, string_data_append] at hd
  simp only [List.append_assoc] at hd
  have h2 := List.append_cancel_left (List.append_cancel_left hd)
  rw [natRepr_data, natRepr_data] at h2
  exact reprDigits_inj a b h2

theorem line_id_ne_root (n : Nat) : "line_" ++ Nat.repr n ≠ "root" := by
  intro h
  have hd := congrArg String.data h
  rw [string_data_append] at hd
  have hlen := congrArg List.length hd
  rw [List.length_append] at hlen
  have h1 : (Nat.repr n).data.length = (reprDigits n).length := by rw [natRepr_data]
  have h2 := reprDigits_length_pos n
  have h4 : ("line_" : String).data.length = 5 := rfl
  have h5 : ("root" : String).data.length = 4 := rfl
  omega

/-! ## `arange` and fancy-indexing lemmas -/

theorem arange_length (n step : Nat) : (arange n step).length = (n + step - 1) / step := by
  simp [arange]

theorem arange_one (n : Nat) : arange n 1 = List.range n := by
  simp [arange]

theorem mem_arange_lt (n step i : Nat) (hs : 0 < step) (hn : 0 < n)
    (h : i ∈ arange n step) : i < n := by
  simp only [arange, List.mem_map, List.mem_range] at h
  obtain ⟨j, hj, rfl⟩ := h
  have h1 : (j + 1) * step ≤ ((n + step - 1) / step) * step :=
    Nat.mul_le_mul_right step (Nat.succ_le_of_lt hj)
  have h2 : ((n + step - 1) / step) * step ≤ n + step - 1 := Nat.div_mul_le_self _ _
  have h3 : j * step + step = (j + 1) * step := by ring
  omega

theorem arange_head? (n step : Nat) (hn : 0 < n) (hs : 0 < step) :
    (arange n step).head? = some 0 := by
  have hc : 0 < (n + step - 1) / step := Nat.div_pos (by omega) hs
  rw [arange]
  have h1 : (n + step - 1) / step = ((n + step - 1) / step - 1) + 1 := by omega
  rw [h1, List.range_succ_eq_map]
  simp

theorem arange_getLast? (n step : Nat) (hn : 0 < n) (hs : 0 < step) :
    (arange n step).getLast? = some (((n + step - 1) / step - 1) * step) := by
  have hc : 0 < (n + step - 1) / step := Nat.div_pos (by omega) hs
  rw [arange]
  have h1 : (n + step - 1) / step = ((n + step - 1) / step - 1) + 1 := by omega
  rw [h1, List.range_succ]
  simp

theorem sel_append (l : List α) (is js : List Nat) :
    sel l (is ++ js) = sel l is ++ sel l js := by
  simp [sel]

theorem sel_cons_lt (l : List α) (i : Nat) (is : List Nat) (h : i < l.length) :
    sel l (i :: is) = l.get ⟨i, h⟩ :: sel l is := by
  simp [sel, List.filterMap_cons, List.get?_eq_getElem?, List.getElem?_eq_getElem h]

theorem sel_length (l : List α) (is : List Nat) (h : ∀ i ∈ is, i < l.length) :
    (sel l is).length = is.length := by
  induction is with
  | nil => rfl
  | cons i tl ih =>
    rw [sel_cons_lt l i tl (h i (by simp))]
    simp only [List.length_cons]
    rw [ih (fun j hj => h j (by simp [hj]))]

theorem sel_range (l : List α) (n : Nat) : sel l (List.range n) = l.take n := by
  induction n with
  | zero => simp [sel]
  | succ n ih =>
    rw [List.range_succ, sel_append, ih, List.take_succ]
    congr 1
    simp only [sel, List.filterMap_cons, List.filterMap_nil, List.get?_eq_getElem?]
    cases hg : l[n]? <;> simp [hg]

theorem sel_range_self (l : List α) : sel l (List.range l.length) = l := by
  rw [sel_range, List.take_length]

theorem sel_head? (vs : List α) (is : List Nat) (h : is.head? = some 0)
    (hv : 0 < vs.length) : (sel vs is).head? = vs.head? := by
  cases is with
  | nil => simp at h
  | cons i tl =>
    simp at h
    subst h
    cases vs with
    | nil => simp at hv
    | cons a l => simp [sel]

theorem sel_getLast?_concat (vs : List α) (is : List Nat) (j : Nat) (h : j < vs.length) :
    (sel vs (is ++ [j])).getLast? = vs.get? j := by
  have h1 : sel vs [j] = [vs.get ⟨j, h⟩] := by
    simp [sel, List.filterMap_cons, List.get?_eq_getElem?, List.getElem?_eq_getElem h]
  rw [sel_append, h1, List.getLast?_concat, List.get?_eq_get h]

theorem eq_concat_of_getLast? (l : List α) (a : α) (h : l.getLast? = some a) :
    l.dropLast ++ [a] = l := by
  cases l with
  | nil => simp at h
  | cons b bs =>
    have hne : b :: bs ≠ [] := by simp
    rw [List.getLast?_eq_getLast _ hne] at h
    simp only [Option.some.injEq] at h
    rw [← h]
    exact List.dropLast_append_getLast hne

/-! ## `simplify_line` lemmas -/

theorem simplify_line_eq_of_hit {α : Type} (vs : List α) (idx : List Nat)
    (h2 : 2 < vs.length)
    (hcond : (arange vs.length (max 1 (vs.length / 10000))).getLast?
      = some (vs.length - 1)) :
    AdaptiveLODSystem.simplify_line vs idx "radial_distance" =
      (sel vs (arange vs.length (max 1 (vs.length / 10000))),
       List.range (sel vs (arange vs.length (max 1 (vs.length / 10000)))).length) := by
  rw [AdaptiveLODSystem.simplify_line]
  rw [if_pos rfl, if_neg (by omega)]
  simp [hcond]

theorem simplify_line_eq_of_miss {α : Type} (vs : List α) (idx : List Nat)
    (h2 : 2 < vs.length)
    (hcond : (arange vs.length (max 1 (vs.length / 10000))).getLast?
      ≠ some (vs.length - 1)) :
    AdaptiveLODSystem.simplify_line vs idx "radial_distance" =
      (sel vs (arange vs.length (max 1 (vs.length / 10000)) ++ [vs.length - 1]),
       List.range
         (sel vs (arange vs.length (max 1 (vs.length / 10000)) ++ [vs.length - 1])).length) := by
  rw [AdaptiveLODSystem.simplify_line]
  rw [if_pos rfl, if_neg (by omega)]
  simp [hcond]

/-- Full characterization of `simplify_line` for `"radial_distance"` and more
than two vertices: the output indices renumber `0..m-1`, the first and last
input vertices survive, and the output length is the sample count, plus one
when the last index had to be force-included. -/
theorem simplify_line_radial_spec {α : Type} (vs : List α) (idx : List Nat)
    (h2 : 2 < vs.length) :
    (AdaptiveLODSystem.simplify_line vs idx "radial_distance").2 =
      List.range (AdaptiveLODSystem.simplify_line vs idx "radial_distance").1.length ∧
    (AdaptiveLODSystem.simplify_line vs idx "radial_distance").1.head? = vs.head? ∧
    (AdaptiveLODSystem.simplify_line vs idx "radial_distance").1.getLast? = vs.getLast? ∧
    (AdaptiveLODSystem.simplify_line vs idx "radial_distance").1.length =
      (if (((vs.length + max 1 (vs.length / 10000) - 1) / max 1 (vs.length / 10000)) - 1)
            * max 1 (vs.length / 10000) = vs.length - 1
       then (vs.length + max 1 (vs.length / 10000) - 1) / max 1 (vs.length / 10000)
       else ((vs.length + max 1 (vs.length / 10000) - 1) / max 1 (vs.length / 10000)) + 1) := by
  have hs : 0 < max 1 (vs.length / 10000) := Nat.lt_of_lt_of_le Nat.zero_lt_one (le_max_left _ _)
  have hn0 : 0 < vs.length := by omega
  have hL := arange_getLast? vs.length (max 1 (vs.length / 10000)) hn0 hs
  have hH := arange_head? vs.length (max 1 (vs.length / 10000)) hn0 hs
  have hmem : ∀ i ∈ arange vs.length (max 1 (vs.length / 10000)), i < vs.length :=
    fun i hi => mem_arange_lt vs.length (max 1 (vs.length / 10000)) i hs hn0 hi
  by_cases hcond : (((vs.length + max 1 (vs.length / 10000) - 1) / max 1 (vs.length / 10000)) - 1)
      * max 1 (vs.length / 10000) = vs.length - 1
  · have hc2 : (arange vs.length (max 1 (vs.length / 10000))).getLast?
        = some (vs.length - 1) := by rw [hL, hcond]
    rw [simplify_line_eq_of_hit vs idx h2 hc2]
    refine ⟨rfl, ?_, ?_, ?_⟩
    · exact sel_head? vs _ hH (by omega)
    · have h3 := eq_concat_of_getLast? _ _ hc2
      rw [← h3, sel_getLast?_concat vs _ (vs.length - 1) (by omega)]
      rw [List.get?_eq_getElem?, List.getLast?_eq_getElem?]
    · rw [if_pos hcond, sel_length vs _ hmem, arange_length]
  · have hc2 : (arange vs.length (max 1 (vs.length / 10000))).getLast?
        ≠ some (vs.length - 1) := by rw [hL]; simp [hcond]
    rw [simplify_line_eq_of_miss vs idx h2 hc2]
    refine ⟨rfl, ?_, ?_, ?_⟩
    · apply sel_head? vs _ ?_ (by omega)
      cases harr : arange vs.length (max 1 (vs.length / 10000)) with
      | nil => rw [harr] at hH; simp at hH
      | cons a tl =>
        rw [harr] at hH
        simp at hH
        simp [hH]
    · rw [sel_getLast?_concat vs _ (vs.length - 1) (by omega)]
      rw [List.get?_eq_getElem?, List.getLast?_eq_getElem?]
    · rw [if_neg hcond]
      rw [sel_length vs _ ?_, List.length_append, arange_length]
      · simp
      · intro i hi
        rcases List.mem_append.1 hi with hi1 | hi1
        · exact hmem i hi1
        · simp at hi1; omega

/-- The simplified length is at least 2 and at most the input length. -/
theorem simplify_line_length_bounds {α : Type} (vs : List α) (idx : List Nat)
    (h2 : 2 < vs.length) :
    2 ≤ (AdaptiveLODSystem.simplify_line vs idx "radial_distance").1.length ∧
    (AdaptiveLODSystem.simplify_line vs idx "radial_distance").1.length ≤ vs.length := by
  obtain ⟨-, -, -, hlen⟩ := simplify_line_radial_spec vs idx h2
  have hs : 0 < max 1 (vs.length / 10000) :=
    Nat.lt_of_lt_of_le Nat.zero_lt_one (le_max_left _ _)
  have hcform : (vs.length + max 1 (vs.length / 10000) - 1) / max 1 (vs.length / 10000)
      = (vs.length - 1) / max 1 (vs.length / 10000) + 1 := by
    have h3 : vs.length + max 1 (vs.length / 10000) - 1
        = (vs.length - 1) + max 1 (vs.length / 10000) := by omega
    rw [h3, Nat.add_div_right _ hs]
  have hchoice := max_choice 1 (vs.length / 10000)
  have hsle : max 1 (vs.length / 10000) ≤ vs.length - 1 := by
    rcases hchoice with hx | hx <;> rw [hx]
    · omega
    · have := Nat.div_le_div_left (show 2 ≤ 10000 by omega) (show 0 < 2 by omega)
        (a := vs.length)
      omega
  have hone : 1 ≤ (vs.length - 1) / max 1 (vs.length / 10000) :=
    (Nat.one_le_div_iff hs).2 hsle
  have hdivle : (vs.length - 1) / max 1 (vs.length / 10000) ≤ vs.length - 1 :=
    Nat.div_le_self _ _
  by_cases hcond : (((vs.length + max 1 (vs.length / 10000) - 1) / max 1 (vs.length / 10000)) - 1)
      * max 1 (vs.length / 10000) = vs.length - 1
  · rw [if_pos hcond, hcform] at hlen
    omega
  · rw [if_neg hcond, hcform] at hlen
    have hs1 : max 1 (vs.length / 10000) ≠ 1 := by
      intro h1
      apply hcond
      rw [hcform, h1]
      simp
    have hs2 : 2 ≤ max 1 (vs.length / 10000) := by
      have := le_max_left 1 (vs.length / 10000)
      omega
    have hhalf : (vs.length - 1) / max 1 (vs.length / 10000) ≤ (vs.length - 1) / 2 :=
      Nat.div_le_div_left hs2 (by omega)
    omega

/-! ## Shader cache lemmas -/

theorem canonicalItems_perm (p : MatProps) : (canonicalItems p).Perm p :=
  List.perm_insertionSort _ p

theorem canonicalItems_eq_of_perm (p1 p2 : MatProps) (hperm : p2.Perm p1)
    (hnd : (p1.map (·.1)).Nodup) : canonicalItems p2 = canonicalItems p1 := by
  have hs1 := List.sorted_insertionSort (fun a b : String × Int => a.1 ≤ b.1) p1
  have hs2 := List.sorted_insertionSort (fun a b : String × Int => a.1 ≤ b.1) p2
  have hp : (canonicalItems p2).Perm (canonicalItems p1) :=
    (canonicalItems_perm p2).trans (hperm.trans (canonicalItems_perm p1).symm)
  have hnd1 : ((canonicalItems p1).map (·.1)).Nodup :=
    (((canonicalItems_perm p1).map (·.1)).nodup_iff).2 hnd
  have hnd2 : ((canonicalItems p2).map (·.1)).Nodup :=
    ((hp.map (·.1)).nodup_iff).2 hnd1
  have hne1 : (canonicalItems p1).Pairwise (fun a b => a.1 ≠ b.1) :=
    List.pairwise_map.1 hnd1
  have hne2 : (canonicalItems p2).Pairwise (fun a b => a.1 ≠ b.1) :=
    List.pairwise_map.1 hnd2
  have hlt1 : List.Sorted (fun a b : String × Int => a.1 < b.1) (canonicalItems p1) :=
    (List.Pairwise.and hs1 hne1).imp (fun h => lt_of_le_of_ne h.1 h.2)
  have hlt2 : List.Sorted (fun a b : String × Int => a.1 < b.1) (canonicalItems p2) :=
    (List.Pairwise.and hs2 hne2).imp (fun h => lt_of_le_of_ne h.1 h.2)
  exact List.eq_of_perm_of_sorted hp hlt2 hlt1

theorem shaderCacheKey_ne_of_keys (g : Option String) (p1 p3 : MatProps)
    (h : ¬ (p3.map (·.1)).Perm (p1.map (·.1))) :
    shaderCacheKey g p3 ≠ shaderCacheKey g p1 := by
  intro he
  apply h
  have hcan : canonicalItems p3 = canonicalItems p1 := congrArg Prod.snd he
  have hp : p3.Perm p1 :=
    (canonicalItems_perm p3).symm.trans (hcan ▸ canonicalItems_perm p1)
  exact hp.map (·.1)

theorem get_shader_caches (sm : ShaderManager) (g : Option String) (props : MatProps) :
    dictGet (sm.get_shader_for_geometry g props).1.shader_cache (shaderCacheKey g props)
      = some (sm.get_shader_for_geometry g props).2 := by
  rw [ShaderManager.get_shader_for_geometry.eq_def]
  cases hc : dictGet sm.shader_cache (shaderCacheKey g props) with
  | some pid => simp [hc]
  | none => simp [hc, dictGet_dictSet_self]

theorem dictGet_dictSet_isSome [DecidableEq κ] (d : Dict κ β) (k k2 : κ) (v : β)
    (h : (dictGet d k2).isSome) : (dictGet (dictSet d k v) k2).isSome := by
  by_cases he : k2 = k
  · subst he; rw [dictGet_dictSet_self]; rfl
  · rw [dictGet_dictSet_ne d k k2 v he]; exact h

theorem get_shader_wf (sm : ShaderManager) (g : Option String) (props : MatProps)
    (hwf : ShaderManagerWF sm) :
    ShaderManagerWF (sm.get_shader_for_geometry g props).1 ∧
    (dictGet (sm.get_shader_for_geometry g props).1.programs
      (sm.get_shader_for_geometry g props).2).isSome ∧
    (∀ pid, (dictGet sm.programs pid).isSome →
      (dictGet (sm.get_shader_for_geometry g props).1.programs pid).isSome) := by
  rw [ShaderManager.get_shader_for_geometry.eq_def]
  cases hc : dictGet sm.shader_cache (shaderCacheKey g props) with
  | some pid =>
    simp only [hc]
    exact ⟨hwf, hwf _ _ hc, fun _ h => h⟩
  | none =>
    simp only [hc]
    refine ⟨?_, ?_, ?_⟩
    · intro k pid h
      by_cases hk : k = shaderCacheKey g props
      · subst hk
        rw [dictGet_dictSet_self] at h
        cases h
        rw [dictGet_dictSet_self]
        rfl
      · rw [dictGet_dictSet_ne _ _ _ _ hk] at h
        exact dictGet_dictSet_isSome _ _ _ _ (hwf _ _ h)
    · rw [dictGet_dictSet_self]; rfl
    · exact fun pid h => dictGet_dictSet_isSome _ _ _ _ h

theorem prepareNodes_spec (nodes : Dict String SnapNode) :
    ∀ (sm : ShaderManager) (heap : List Data), ShaderManagerWF sm →
      ((prepareNodes sm heap nodes).2.map (fun x => (x.1, x.2.visible))
        = nodes.map (fun x => (x.1, x.2.visible))) ∧
      ShaderManagerWF (prepareNodes sm heap nodes).1 ∧
      (∀ pid, (dictGet sm.programs pid).isSome →
        (dictGet (prepareNodes sm heap nodes).1.programs pid).isSome) ∧
      (∀ e ∈ (prepareNodes sm heap nodes).2,
        (dictGet (prepareNodes sm heap nodes).1.programs e.2.shader).isSome) := by
  induction nodes with
  | nil =>
    intro sm heap hwf
    exact ⟨rfl, hwf, fun _ h => h, by simp [prepareNodes]⟩
  | cons hd tl ih =>
    intro sm heap hwf
    obtain ⟨nid, nd⟩ := hd
    obtain ⟨hwf1, hself, hmono1⟩ :=
      get_shader_wf sm nd.geometry_type (readRef heap nd.matRef) hwf
    obtain ⟨hmap, hwf2, hmono2, hall⟩ :=
      ih (sm.get_shader_for_geometry nd.geometry_type (readRef heap nd.matRef)).1 heap hwf1
    have hre : prepareNodes sm heap ((nid, nd) :: tl) =
        ((prepareNodes (sm.get_shader_for_geometry nd.geometry_type
            (readRef heap nd.matRef)).1 heap tl).1,
         (nid, { id := nid, type := nd.type, geometry_type := nd.geometry_type,
                 data := readRef heap nd.dataRef,
                 material_properties := readRef heap nd.matRef,
                 transform := nd.transform, visible := nd.visible,
                 shader := (sm.get_shader_for_geometry nd.geometry_type
                   (readRef heap nd.matRef)).2 }) ::
           (prepareNodes (sm.get_shader_for_geometry nd.geometry_type
             (readRef heap nd.matRef)).1 heap tl).2) := by
      rw [prepareNodes]
    rw [hre]
    refine ⟨?_, hwf2, ?_, ?_⟩
    · simp only [List.map_cons]
      rw [hmap]
    · exact fun pid h => hmono2 pid (hmono1 pid h)
    · intro e he
      rcases List.mem_cons.1 he with he1 | he1
      · subst he1
        exact hmono2 _ hself
      · exact hall e he1

/-! ## Scene-graph id lemmas -/

theorem add_line_unfold (m : SceneManager) (d kw : Data) (rn : PyNode)
    (hrn : dictGet m.nodes "root" = some rn) :
    m.add_line d kw =
      ({ m with
          heap := m.heap ++ [d, dictUpdate [] kw],
          nodes := dictSet
            (dictSet m.nodes "root"
              { rn with children := rn.children ++ ["line_" ++ Nat.repr m.nodes.length] })
            ("line_" ++ Nat.repr m.nodes.length)
            { node_id := "line_" ++ Nat.repr m.nodes.length, node_type := "geometry",
              children := [], parent := some "root", visible := true, transform := eye4,
              geometry_type := some "line", dataCell := some m.heap.length,
              matCell := some (m.heap.length + 1) } },
       "line_" ++ Nat.repr m.nodes.length) := by
  rw [SceneManager.add_line, SceneManager.addGeometry, hrn]
  rfl

theorem addLines_keys (ps : List (Data × Data)) :
    ∀ (m : SceneManager) (k : Nat),
      dictKeys m.nodes = "root" :: (List.range k).map (fun i => "line_" ++ Nat.repr (i + 1)) →
      (addLines m ps).2
        = (List.range ps.length).map (fun i => "line_" ++ Nat.repr (k + 1 + i)) ∧
      dictKeys (addLines m ps).1.nodes
        = "root" :: (List.range (k + ps.length)).map (fun i => "line_" ++ Nat.repr (i + 1)) := by
  induction ps with
  | nil =>
    intro m k hk
    refine ⟨rfl, ?_⟩
    simpa [addLines] using hk
  | cons p rest ih =>
    intro m k hk
    obtain ⟨d, kw⟩ := p
    have hlen : m.nodes.length = k + 1 := by
      have h1 := congrArg List.length hk
      simpa [dictKeys] using h1
    have hroot : (dictGet m.nodes "root").isSome := by
      rcases ho : dictGet m.nodes "root" with _ | rn
      · rw [dictGet_eq_none_iff, hk] at ho
        simp at ho
      · rfl
    obtain ⟨rn, hrn⟩ := Option.isSome_iff_exists.1 hroot
    have hfresh : dictGet m.nodes ("line_" ++ Nat.repr m.nodes.length) = none := by
      rw [dictGet_eq_none_iff, hk, hlen]
      intro hmem
      rcases List.mem_cons.1 hmem with h1 | h1
      · exact line_id_ne_root (k + 1) h1
      · obtain ⟨i, hi, hid⟩ := List.mem_map.1 h1
        rw [List.mem_range] at hi
        have := geom_id_inj "line" (i + 1) (k + 1) hid
        omega
    have hunf := add_line_unfold m d kw rn hrn
    have hstep : addLines m ((d, kw) :: rest)
        = ((addLines (m.add_line d kw).1 rest).1,
           (m.add_line d kw).2 :: (addLines (m.add_line d kw).1 rest).2) := by
      rw [addLines]
    have hA : dictKeys (dictSet m.nodes "root"
        { rn with children := rn.children ++ ["line_" ++ Nat.repr m.nodes.length] })
        = dictKeys m.nodes :=
      dictKeys_dictSet_of_isSome _ _ _ (by rw [hrn]; rfl)
    have hB : dictGet (dictSet m.nodes "root"
        { rn with children := rn.children ++ ["line_" ++ Nat.repr m.nodes.length] })
        ("line_" ++ Nat.repr m.nodes.length) = none := by
      rw [dictGet_dictSet_ne _ _ _ _ (line_id_ne_root _)]
      exact hfresh
    have hkeys1 : dictKeys (m.add_line d kw).1.nodes
        = "root" :: (List.range (k + 1)).map (fun i => "line_" ++ Nat.repr (i + 1)) := by
      rw [hunf]
      show dictKeys (dictSet (dictSet m.nodes "root" _) _ _) = _
      rw [dictKeys_dictSet_of_none _ _ _ hB, hA, hk, hlen, List.range_succ]
      simp
    obtain ⟨hids, hkeys2⟩ := ih (m.add_line d kw).1 (k + 1) hkeys1
    rw [hstep]
    constructor
    · show (m.add_line d kw).2 :: (addLines (m.add_line d kw).1 rest).2 = _
      have hid2 : (m.add_line d kw).2 = "line_" ++ Nat.repr (k + 1) := by
        rw [hunf, hlen]
      rw [hid2, hids]
      have hlc : ((d, kw) :: rest).length = rest.length + 1 := rfl
      rw [hlc, List.range_succ_eq_map, List.map_cons, List.map_map]
      congr 1
      apply List.map_congr_left
      intro i _
      show "line_" ++ Nat.repr (k + 1 + 1 + i) = "line_" ++ Nat.repr (k + 1 + (i + 1))
      congr 2
      omega
    · rw [hkeys2]
      have hlc : ((d, kw) :: rest).length = rest.length + 1 := rfl
      rw [hlc]
      have harith : k + 1 + rest.length = k + (rest.length + 1) := by omega
      rw [harith]

/-- When the vertex count is below 20000 the stride is 1, so simplification
keeps every vertex. -/
theorem simplify_line_small {α : Type} (vs : List α) (idx : List Nat)
    (h2 : 2 < vs.length) (hsmall : vs.length < 20000) :
    (AdaptiveLODSystem.simplify_line vs idx "radial_distance").1.length = vs.length := by
  obtain ⟨-, -, -, hlen⟩ := simplify_line_radial_spec vs idx h2
  have h1 : max 1 (vs.length / 10000) = 1 := by
    have hd : vs.length / 10000 ≤ 1 := by omega
    exact max_eq_left hd
  rw [h1] at hlen
  simp only [Nat.add_sub_cancel, Nat.div_one, Nat.mul_one] at hlen
  simpa using hlen

/-! ## Claim theorems -/

/-- C1 (code bug in the source): pipeline buffers are registered under the
fixed literal names `"line_vertices"` / `"line_indices"`, not names qualified
by an owning node id.  Two successive `process_line_data` calls therefore
alias the same registry entries and the second call overwrites the first:
after both calls the registry holds only two buffers, and the entry named
`"line_vertices"` is the second call's buffer, not the first call's. -/
theorem c1_buffer_overwrite :
    ∃ dp1 r1 dp2 r2,
      DataPipeline.init.process_line_data [0, 1] [0, 1] = .ok (dp1, r1) ∧
      dp1.process_line_data [2, 3, 4] [2, 3, 4] = .ok (dp2, r2) ∧
      dictGet dp1.zero_copy_pipeline.buffers "line_vertices" = some r1.vertices ∧
      dictGet dp2.zero_copy_pipeline.buffers "line_vertices" = some r2.vertices ∧
      r1.vertices ≠ r2.vertices ∧
      dictKeys dp2.zero_copy_pipeline.buffers = ["line_vertices", "line_indices"] := by
  refine ⟨_, _, _, _, rfl, rfl, ?_, ?_, ?_, ?_⟩ <;> decide

/-- C2 counterexample: the snapshot returned by `get_scene` aliases the live
node's `data` dict, so mutating the graph through `update_node` after taking
a snapshot changes the snapshot's observable contents. -/
theorem c2_snapshot_alias_counterexample :
    ∃ m2, (SceneManager.init.add_line [("a", 1)] []).1.update_node "line_1" [("a", 2)]
        = .ok (m2, true) ∧
      readScene m2.heap ((SceneManager.init.add_line [("a", 1)] []).1.get_scene)
        ≠ readScene (SceneManager.init.add_line [("a", 1)] []).1.heap
            ((SceneManager.init.add_line [("a", 1)] []).1.get_scene) :=
  ⟨_, rfl, by decide⟩

/-- C2 (amended): `get_scene` copies transform and visibility by value and a
snapshot survives removal of its nodes — `remove_node` never touches the
heap of shared dicts, so the snapshot's observable contents are unchanged
and the snapshot still reports every snapshotted node (`remove_node` cannot
reach into the already-built snapshot).  However the `data` /
`material_properties` entries alias live node state, so `update_node` after
a snapshot does change the snapshot's contents (see the counterexample). -/
theorem c2_snapshot_amended (m : SceneManager) (id : String) (node : PyNode)
    (h1 : dictGet m.nodes id = some node) (h2 : id ≠ "root") :
    (m.remove_node id).1.heap = m.heap ∧
    readScene (m.remove_node id).1.heap m.get_scene = readScene m.heap m.get_scene ∧
    dictGet (m.get_scene).nodes id = some (snapOf node) := by
  have hheap : (m.remove_node id).1.heap = m.heap := by
    rw [SceneManager.remove_node]
    split
    · split <;> rfl
    · rfl
  refine ⟨hheap, by rw [hheap], ?_⟩
  show dictGet ((m.nodes.filter (fun e => e.1 != "root")).map (fun e => (e.1, snapOf e.2))) id
      = some (snapOf node)
  rw [dictGet_snapNodes m.nodes id h2, h1]
  rfl

/-- Witness for C2: a one-line scene with a fresh snapshot. -/
theorem c2_snapshot_amended_witness :
    dictGet (SceneManager.init.add_line [] []).1.nodes "line_1" = some
      { node_id := "line_1", node_type := "geometry", children := [],
        parent := some "root", visible := true, transform := eye4,
        geometry_type := some "line", dataCell := some 0, matCell := some 1 } ∧
    "line_1" ≠ "root" ∧
    (((SceneManager.init.add_line [] []).1.remove_node "line_1").1.heap
        = (SceneManager.init.add_line [] []).1.heap ∧
      readScene ((SceneManager.init.add_line [] []).1.remove_node "line_1").1.heap
          (SceneManager.init.add_line [] []).1.get_scene
        = readScene (SceneManager.init.add_line [] []).1.heap
            (SceneManager.init.add_line [] []).1.get_scene ∧
      dictGet ((SceneManager.init.add_line [] []).1.get_scene).nodes "line_1" = some (snapOf
        { node_id := "line_1", node_type := "geometry", children := [],
          parent := some "root", visible := true, transform := eye4,
          geometry_type := some "line", dataCell := some 0, matCell := some 1 })) :=
  ⟨by decide, by decide,
   c2_snapshot_amended (SceneManager.init.add_line [] []).1 "line_1" _ (by decide) (by decide)⟩

/-- C3 counterexample: for `n = 15000 > 2` vertices the stride is
`max(1, 15000 // 10000) = 1`, so the "simplified" output keeps all 15000
points — violating the claimed bound `m ≤ target_count + 1 = 10001`. -/
theorem c3_simplify_line_counterexample :
    ¬ ((AdaptiveLODSystem.simplify_line (List.range 15000) (List.range 15000)
        "radial_distance").1.length ≤ 10000 + 1) := by
  have h := simplify_line_small (List.range 15000) (List.range 15000)
    (by simp) (by simp)
  rw [h]
  simp

/-- C3 (amended): for every vertex list with `n > 2`, radial-distance
simplification renumbers the output index buffer contiguously `0..m-1`,
keeps the first and last original point, and `2 ≤ m ≤ n`; the claimed bound
`m ≤ target_count + 1` does not hold for every `n` (see the counterexample),
but it does hold at the spec's instance `n = 50000`, where `m = 10001`
exactly. -/
theorem c3_simplify_line_amended {α : Type} (vs : List α) (idx : List Nat)
    (h : 2 < vs.length) :
    (AdaptiveLODSystem.simplify_line vs idx "radial_distance").2 =
      List.range (AdaptiveLODSystem.simplify_line vs idx "radial_distance").1.length ∧
    (AdaptiveLODSystem.simplify_line vs idx "radial_distance").1.head? = vs.head? ∧
    (AdaptiveLODSystem.simplify_line vs idx "radial_distance").1.getLast? = vs.getLast? ∧
    2 ≤ (AdaptiveLODSystem.simplify_line vs idx "radial_distance").1.length ∧
    (AdaptiveLODSystem.simplify_line vs idx "radial_distance").1.length ≤ vs.length ∧
    (vs.length = 50000 →
      (AdaptiveLODSystem.simplify_line vs idx "radial_distance").1.length = 10000 + 1) := by
  obtain ⟨ha, hb, hc, hlen⟩ := simplify_line_radial_spec vs idx h
  obtain ⟨hd, he⟩ := simplify_line_length_bounds vs idx h
  refine ⟨ha, hb, hc, hd, he, ?_⟩
  intro h50
  rw [h50] at hlen
  norm_num at hlen
  exact hlen

/-- Witness for C3 at a 4-point line. -/
theorem c3_simplify_line_witness :
    2 < ([10, 20, 30, 40] : List Scalar).length ∧
    ((AdaptiveLODSystem.simplify_line ([10, 20, 30, 40] : List Scalar) [0, 1, 2, 3]
        "radial_distance").2 =
      List.range (AdaptiveLODSystem.simplify_line ([10, 20, 30, 40] : List Scalar)
        [0, 1, 2, 3] "radial_distance").1.length ∧
    (AdaptiveLODSystem.simplify_line ([10, 20, 30, 40] : List Scalar) [0, 1, 2, 3]
        "radial_distance").1.head? = ([10, 20, 30, 40] : List Scalar).head? ∧
    (AdaptiveLODSystem.simplify_line ([10, 20, 30, 40] : List Scalar) [0, 1, 2, 3]
        "radial_distance").1.getLast? = ([10, 20, 30, 40] : List Scalar).getLast? ∧
    2 ≤ (AdaptiveLODSystem.simplify_line ([10, 20, 30, 40] : List Scalar) [0, 1, 2, 3]
        "radial_distance").1.length ∧
    (AdaptiveLODSystem.simplify_line ([10, 20, 30, 40] : List Scalar) [0, 1, 2, 3]
        "radial_distance").1.length ≤ ([10, 20, 30, 40] : List Scalar).length ∧
    (([10, 20, 30, 40] : List Scalar).length = 50000 →
      (AdaptiveLODSystem.simplify_line ([10, 20, 30, 40] : List Scalar) [0, 1, 2, 3]
        "radial_distance").1.length = 10000 + 1)) :=
  ⟨by decide, c3_simplify_line_amended ([10, 20, 30, 40] : List Scalar) [0, 1, 2, 3] (by decide)⟩

/-- Unfolding `remove_node` on a known non-root node with a known parent. -/
theorem remove_node_unfold (m : SceneManager) (id : String) (node : PyNode)
    (p : String) (pn : PyNode)
    (h1 : dictGet m.nodes id = some node) (h2 : id ≠ "root")
    (hp : node.parent = some p) (hpn : dictGet m.nodes p = some pn) :
    m.remove_node id =
      ({ m with nodes := dictErase (dictSet m.nodes p
          { pn with children := pn.children.erase id }) id }, true) := by
  rw [SceneManager.remove_node, h1]
  simp [h2, hp, hpn]

/-- C4 counterexample: removing the root does not raise an `InvalidOperation`
error — `remove_node "root"` is an ordinary boolean-returning call that
leaves the manager unchanged and returns `False`. -/
theorem c4_remove_root_counterexample :
    SceneManager.init.remove_node "root" = (SceneManager.init, false) := rfl

/-- C4 (amended): `remove_node` on a known non-root id detaches the node from
its parent's child list, deletes it from the id-to-node map (a later
snapshot shows no trace of it) and returns `True`; attempting to remove the
root fails by returning `False` without raising any error (the source has no
`InvalidOperation` exception). -/
theorem c4_remove_node_amended (m : SceneManager) (id p : String) (node pn : PyNode)
    (h1 : dictGet m.nodes id = some node) (h2 : id ≠ "root")
    (h3 : (dictKeys m.nodes).Nodup)
    (hp : node.parent = some p) (hpi : p ≠ id) (hpn : dictGet m.nodes p = some pn) :
    (m.remove_node id).2 = true ∧
    dictGet (m.remove_node id).1.nodes id = none ∧
    dictGet ((m.remove_node id).1.get_scene).nodes id = none ∧
    dictGet (m.remove_node id).1.nodes p
      = some { pn with children := pn.children.erase id } ∧
    m.remove_node "root" = (m, false) := by
  have hunf := remove_node_unfold m id node p pn h1 h2 hp hpn
  have hkeys : (dictKeys (dictSet m.nodes p
      { pn with children := pn.children.erase id })).Nodup := by
    rw [dictKeys_dictSet_of_isSome _ _ _ (by rw [hpn]; rfl)]
    exact h3
  have herased : dictGet (m.remove_node id).1.nodes id = none := by
    rw [hunf]
    exact dictGet_dictErase_self _ _ hkeys
  refine ⟨by rw [hunf], herased, ?_, ?_, ?_⟩
  · show dictGet (((m.remove_node id).1.nodes.filter (fun e => e.1 != "root")).map
        (fun e => (e.1, snapOf e.2))) id = none
    rw [dictGet_snapNodes _ id h2, herased]
    rfl
  · rw [hunf]
    show dictGet (dictErase (dictSet m.nodes p
      { pn with children := pn.children.erase id }) id) p = _
    rw [dictGet_dictErase_ne _ _ _ hpi, dictGet_dictSet_self]
  · rw [SceneManager.remove_node]
    simp

/-- Witness for C4: remove the only line of a one-line scene. -/
theorem c4_remove_node_amended_witness :
    dictGet (SceneManager.init.add_line [] []).1.nodes "line_1" = some
      { node_id := "line_1", node_type := "geometry", children := [],
        parent := some "root", visible := true, transform := eye4,
        geometry_type := some "line", dataCell := some 0, matCell := some 1 } ∧
    "line_1" ≠ "root" ∧
    (dictKeys (SceneManager.init.add_line [] []).1.nodes).Nodup ∧
    dictGet (SceneManager.init.add_line [] []).1.nodes "root" = some
      { node_id := "root", node_type := "root", children := ["line_1"],
        parent := none, visible := true, transform := eye4,
        geometry_type := none, dataCell := none, matCell := none } ∧
    (((SceneManager.init.add_line [] []).1.remove_node "line_1").2 = true ∧
      dictGet ((SceneManager.init.add_line [] []).1.remove_node "line_1").1.nodes "line_1"
        = none ∧
      dictGet (((SceneManager.init.add_line [] []).1.remove_node "line_1").1.get_scene).nodes
        "line_1" = none ∧
      dictGet ((SceneManager.init.add_line [] []).1.remove_node "line_1").1.nodes "root"
        = some { node_id := "root", node_type := "root",
                 children := (["line_1"] : List String).erase "line_1", parent := none,
                 visible := true, transform := eye4, geometry_type := none,
                 dataCell := none, matCell := none } ∧
      (SceneManager.init.add_line [] []).1.remove_node "root"
        = ((SceneManager.init.add_line [] []).1, false)) :=
  ⟨by decide, by decide, by decide, by decide,
   c4_remove_node_amended (SceneManager.init.add_line [] []).1 "line_1" "root"
     { node_id := "line_1", node_type := "geometry", children := [],
       parent := some "root", visible := true, transform := eye4,
       geometry_type := some "line", dataCell := some 0, matCell := some 1 }
     { node_id := "root", node_type := "root", children := ["line_1"],
       parent := none, visible := true, transform := eye4,
       geometry_type := none, dataCell := none, matCell := none }
     (by decide) (by decide) (by decide) (by decide) (by decide) (by decide)⟩

/-- C9 counterexample: node ids are derived from the current map size, so
after a removal an id is reused: in the run `add_line; add_line;
remove_node "line_1"; add_line` the second and the fourth call both return
`"line_2"`. -/
theorem c9_id_reuse_counterexample :
    ((SceneManager.init.add_line [] []).1.add_line [] []).2 = "line_2" ∧
    ((((SceneManager.init.add_line [] []).1.add_line [] []).1.remove_node
        "line_1").1.add_line [] []).2 = "line_2" :=
  ⟨rfl, rfl⟩

/-- C9 (amended): `add_line` derives the id `f"line_{len(self.nodes)}"` from
the current map size.  In any remove-free run the map grows by one per call,
so the returned ids are `line_1, line_2, …` and are pairwise distinct; after
a `remove_node` the map size decreases and an id can be returned twice (see
the counterexample). -/
theorem c9_fresh_ids_amended (ps : List (Data × Data)) :
    (addLines SceneManager.init ps).2
      = (List.range ps.length).map (fun i => "line_" ++ Nat.repr (1 + i)) ∧
    ((addLines SceneManager.init ps).2).Nodup := by
  have h0 : dictKeys SceneManager.init.nodes
      = "root" :: (List.range 0).map (fun i => "line_" ++ Nat.repr (i + 1)) := rfl
  obtain ⟨hids, -⟩ := addLines_keys ps SceneManager.init 0 h0
  refine ⟨hids, ?_⟩
  rw [hids]
  refine List.Nodup.map ?_ (List.nodup_range ps.length)
  intro a b hab
  have := geom_id_inj "line" (0 + 1 + a) (0 + 1 + b) hab
  omega

/-- C10 (confirmed): `update_node` at the root's id does not return a
boolean — the root is present in the map but is a plain `SceneNode` with no
`data` attribute, so the merge step raises `AttributeError`. -/
theorem c10_update_root_attribute_error (m : SceneManager) (d : Data) (node : PyNode)
    (h1 : dictGet m.nodes "root" = some node) (h2 : node.dataCell = none) :
    m.update_node "root" d = .error .attributeError := by
  rw [SceneManager.update_node, h1]
  simp [h2]

/-- Witness for C10 at the freshly constructed scene manager. -/
theorem c10_update_root_attribute_error_witness :
    dictGet SceneManager.init.nodes "root" = some rootNode ∧
    rootNode.dataCell = none ∧
    SceneManager.init.update_node "root" [("k", 5)] = .error .attributeError :=
  ⟨rfl, rfl, c10_update_root_attribute_error SceneManager.init [("k", 5)] rootNode rfl rfl⟩

/-- C5 counterexample: `_prepare_scene` does not skip invisible nodes — a
scene whose only node has `visible = false` still yields that node in the
prepared frame's node collection. -/
theorem c5_invisible_included_counterexample :
    dictKeys (prepareScene ShaderManager.init [] invisibleScene (800, 600)).2.nodes
      = ["line_1"] := rfl

/-- C5 (amended): render preparation includes every node of the snapshot —
visible or not — in the produced frame, carrying the `visible` flag and a
resolved shader program (every prepared node's shader number refers to a
stored program of the resulting shader manager); invisible nodes are skipped
only later, inside the backend's render loop, which draws exactly the
visible nodes. -/
theorem c5_prepare_amended (sm : ShaderManager) (heap : List Data) (scene : SceneDict)
    (vp : Nat × Nat) (b : VulkanBackend) (e : String × PreparedNode)
    (hwf : ShaderManagerWF sm) (hb : b.is_initialized = true)
    (he : e ∈ (prepareScene sm heap scene vp).2.nodes) :
    ((prepareScene sm heap scene vp).2.nodes.map (fun x => (x.1, x.2.visible))
      = scene.nodes.map (fun x => (x.1, x.2.visible))) ∧
    b.render (prepareScene sm heap scene vp).2 =
      .ok (((prepareScene sm heap scene vp).2.nodes.filter
        (fun x => x.2.visible)).map (·.1)) ∧
    (dictGet (prepareScene sm heap scene vp).1.programs e.2.shader).isSome := by
  obtain ⟨hmap, hwf2, hmono, hall⟩ := prepareNodes_spec scene.nodes sm heap hwf
  have hps : (prepareScene sm heap scene vp).2.nodes
      = (prepareNodes sm heap scene.nodes).2 := rfl
  have hps1 : (prepareScene sm heap scene vp).1 = (prepareNodes sm heap scene.nodes).1 := rfl
  refine ⟨by rw [hps]; exact hmap, ?_, ?_⟩
  · rw [VulkanBackend.render, if_neg (by simp [hb])]
  · rw [hps1]
    exact hall e (by rw [← hps]; exact he)

/-- Witness for C5: the one-invisible-node scene. -/
theorem c5_prepare_amended_witness :
    ShaderManagerWF ShaderManager.init ∧
    (VulkanBackend.mk true).is_initialized = true ∧
    ("line_1", invisiblePreparedNode) ∈
      (prepareScene ShaderManager.init [] invisibleScene (800, 600)).2.nodes ∧
    (((prepareScene ShaderManager.init [] invisibleScene (800, 600)).2.nodes.map
        (fun x => (x.1, x.2.visible))
      = invisibleScene.nodes.map (fun x => (x.1, x.2.visible))) ∧
    (VulkanBackend.mk true).render
        (prepareScene ShaderManager.init [] invisibleScene (800, 600)).2 =
      .ok (((prepareScene ShaderManager.init [] invisibleScene (800, 600)).2.nodes.filter
        (fun x => x.2.visible)).map (·.1)) ∧
    (dictGet (prepareScene ShaderManager.init [] invisibleScene (800, 600)).1.programs
      ("line_1", invisiblePreparedNode).2.shader).isSome) :=
  ⟨fun k pid h => by simp [ShaderManager.init, dictGet] at h, rfl, by decide,
   c5_prepare_amended ShaderManager.init [] invisibleScene (800, 600)
     (VulkanBackend.mk true) ("line_1", invisiblePreparedNode)
     (fun k pid h => by simp [ShaderManager.init, dictGet] at h) rfl (by decide)⟩

/-- C6 counterexample: `Renderer.render` before initialization does not fail
with a `NotInitialized`-style error — it silently auto-initializes the
backend inside the render call and succeeds. -/
theorem c6_render_auto_init_counterexample :
    Renderer.init.is_initialized = false ∧
    Renderer.init.render [] emptySceneDict
      = .ok ({ backend := ⟨true⟩, shader_manager := ShaderManager.init,
               is_initialized := true, viewport_size := (800, 600) }, []) :=
  ⟨rfl, rfl⟩

/-- C6 (amended): `Renderer.render` on an uninitialized renderer
auto-initializes the backend as an error-recovery path and succeeds; only
the backend's own `render`, called directly before initialization, raises
(`RuntimeError("Vulkan backend not initialized")`). -/
theorem c6_render_amended (r : Renderer) (heap : List Data) (scene : SceneDict)
    (s : PreparedScene) (h : r.is_initialized = false) :
    (∃ r2 drawn, r.render heap scene = .ok (r2, drawn) ∧
      r2.is_initialized = true ∧ r2.backend.is_initialized = true) ∧
    VulkanBackend.init.render s
      = .error (.runtimeError "Vulkan backend not initialized") := by
  constructor
  · have hr1 : (if ¬ r.is_initialized then r.startup else r)
        = { backend := ⟨true⟩, shader_manager := r.shader_manager,
            is_initialized := true, viewport_size := r.viewport_size } := by
      rw [h]
      simp [Renderer.startup, VulkanBackend.startup, h]
    refine ⟨{ backend := ⟨true⟩,
              shader_manager :=
                (prepareScene r.shader_manager heap scene r.viewport_size).1,
              is_initialized := true, viewport_size := r.viewport_size },
            ((prepareScene r.shader_manager heap scene r.viewport_size).2.nodes.filter
              (fun e => e.2.visible)).map (·.1),
            ?_, rfl, rfl⟩
    rw [Renderer.render, hr1]
    rfl
  · rfl

/-- Witness for C6 with the fresh renderer. -/
theorem c6_render_amended_witness :
    Renderer.init.is_initialized = false ∧
    ((∃ r2 drawn, Renderer.init.render [] emptySceneDict = .ok (r2, drawn) ∧
        r2.is_initialized = true ∧ r2.backend.is_initialized = true) ∧
      VulkanBackend.init.render emptyPreparedScene
        = .error (.runtimeError "Vulkan backend not initialized")) :=
  ⟨rfl, c6_render_amended Renderer.init [] emptySceneDict emptyPreparedScene rfl⟩

/-- C8 (confirmed): the shader cache key canonicalizes the material
properties by sorting the entries, so resolving the same kind with the same
properties in any key order returns the identical cached program object
(same object number) with no state change, and any change to the property
key set yields a different cache key. -/
theorem c8_shader_cache (sm : ShaderManager) (g : Option String) (p1 p2 p3 : MatProps)
    (hperm : p2.Perm p1) (hnd : (p1.map (·.1)).Nodup)
    (h3 : ¬ (p3.map (·.1)).Perm (p1.map (·.1))) :
    ((sm.get_shader_for_geometry g p1).1.get_shader_for_geometry g p2).2
      = (sm.get_shader_for_geometry g p1).2 ∧
    ((sm.get_shader_for_geometry g p1).1.get_shader_for_geometry g p2).1
      = (sm.get_shader_for_geometry g p1).1 ∧
    shaderCacheKey g p3 ≠ shaderCacheKey g p1 := by
  have hkey : shaderCacheKey g p2 = shaderCacheKey g p1 := by
    unfold shaderCacheKey
    rw [canonicalItems_eq_of_perm p1 p2 hperm hnd]
  have hsecond : (sm.get_shader_for_geometry g p1).1.get_shader_for_geometry g p2
      = ((sm.get_shader_for_geometry g p1).1, (sm.get_shader_for_geometry g p1).2) := by
    conv_lhs => rw [ShaderManager.get_shader_for_geometry.eq_def]
    simp only [hkey, get_shader_caches sm g p1]
  exact ⟨by rw [hsecond], by rw [hsecond], shaderCacheKey_ne_of_keys g p1 p3 h3⟩

/-- Witness for C8: resolving `scatter` with `color` and `opacity` in both
orders, against a key with only an `alpha` property. -/
theorem c8_shader_cache_witness :
    ([("opacity", 2), ("color", 1)] : MatProps).Perm [("color", 1), ("opacity", 2)] ∧
    (([("color", 1), ("opacity", 2)] : MatProps).map (·.1)).Nodup ∧
    ¬ (([("alpha", 3)] : MatProps).map (·.1)).Perm
        (([("color", 1), ("opacity", 2)] : MatProps).map (·.1)) ∧
    (((ShaderManager.init.get_shader_for_geometry (some "scatter")
        [("color", 1), ("opacity", 2)]).1.get_shader_for_geometry (some "scatter")
        [("opacity", 2), ("color", 1)]).2
      = (ShaderManager.init.get_shader_for_geometry (some "scatter")
        [("color", 1), ("opacity", 2)]).2 ∧
    ((ShaderManager.init.get_shader_for_geometry (some "scatter")
        [("color", 1), ("opacity", 2)]).1.get_shader_for_geometry (some "scatter")
        [("opacity", 2), ("color", 1)]).1
      = (ShaderManager.init.get_shader_for_geometry (some "scatter")
        [("color", 1), ("opacity", 2)]).1 ∧
    shaderCacheKey (some "scatter") [("alpha", 3)]
      ≠ shaderCacheKey (some "scatter") [("color", 1), ("opacity", 2)]) :=
  ⟨by decide, by decide, by decide,
   c8_shader_cache ShaderManager.init (some "scatter")
     [("color", 1), ("opacity", 2)] [("opacity", 2), ("color", 1)] [("alpha", 3)]
     (by decide) (by decide) (by decide)⟩

theorem normSizes_length (n : Nat) (s : SizeArg) (h : s.lengthOk n) :
    (normSizes n s).length = n := by
  cases s <;> simp_all [normSizes, SizeArg.lengthOk]

theorem normColors_length (n : Nat) (c : ColorArg) (h : c.lengthOk n) :
    (normColors n c).length = n := by
  cases c <;> simp_all [normColors, ColorArg.lengthOk]

/-- The conditional subsampling `l[mask] if len(l) > len(mask) else l` of
`process_scatter_data` always equals `l[mask]`: when the stride is 1 the
mask is the identity selection, otherwise the mask is strictly shorter. -/
theorem cond_subsample_eq {α : Type} (l : List α) (n : Nat) (hl : l.length = n)
    (hn : 0 < n) :
    (if l.length > (arange n (max 1 (n / 50000))).length
     then sel l (arange n (max 1 (n / 50000))) else l)
      = sel l (arange n (max 1 (n / 50000))) := by
  by_cases hone : max 1 (n / 50000) = 1
  · rw [hone, arange_one, if_neg (by simp [hl]), ← hl]
    exact (sel_range_self l).symm
  · have hs : 0 < max 1 (n / 50000) := lt_of_lt_of_le one_pos (le_max_left _ _)
    have hs2 : 2 ≤ max 1 (n / 50000) := by
      have := le_max_left 1 (n / 50000)
      omega
    have hx2 : 2 ≤ n / 50000 := by
      rcases max_choice 1 (n / 50000) with hx | hx <;> omega
    have hform : (n + max 1 (n / 50000) - 1) / max 1 (n / 50000)
        = (n - 1) / max 1 (n / 50000) + 1 := by
      have h3 : n + max 1 (n / 50000) - 1 = (n - 1) + max 1 (n / 50000) := by omega
      rw [h3, Nat.add_div_right _ hs]
    have hhalf := Nat.div_le_div_left hs2 (show 0 < 2 by omega) (a := n - 1)
    have harl : (arange n (max 1 (n / 50000))).length < n := by
      rw [arange_length, hform]
      omega
    rw [if_pos (by omega)]

/-- C7 (confirmed): when the point count exceeds the 50000 threshold,
`process_scatter_data` computes the single index mask
`arange(0, n, max(1, n // 50000))` and applies that identical mask to the
vertex, size, and color arrays, so output point `i` corresponds to exactly
one original input point across all three buffers. -/
theorem c7_scatter_identical_mask (dp : DataPipeline) (x y : List Scalar)
    (c : ColorArg) (s : SizeArg)
    (hy : y.length = x.length) (hc : c.lengthOk x.length) (hs : s.lengthOk x.length)
    (hn : 50000 < x.length) :
    (dp.process_scatter_data x y c s).map (fun r => r.2) = .ok
      { vertices := ⟨.vecs (sel (List.zipWith (fun a b => ((a, b, 0) : Vec3)) x y)
          (arange x.length (max 1 (x.length / 50000)))), "vertex"⟩,
        sizes := ⟨.scal (sel (normSizes x.length s)
          (arange x.length (max 1 (x.length / 50000)))), "attribute"⟩,
        colors := ⟨.cols (sel (normColors x.length c)
          (arange x.length (max 1 (x.length / 50000)))), "attribute"⟩,
        primitive_type := "points",
        count := (sel (List.zipWith (fun a b => ((a, b, 0) : Vec3)) x y)
          (arange x.length (max 1 (x.length / 50000)))).length } := by
  have hn0 : 0 < x.length := by omega
  have hsz := cond_subsample_eq (normSizes x.length s) x.length
    (normSizes_length x.length s hs) hn0
  have hcl := cond_subsample_eq (normColors x.length c) x.length
    (normColors_length x.length c hc) hn0
  have hcB : colorLenBad c x.length = false := by
    cases c with
    | noColor => rfl
    | gray l => simp only [colorLenBad, bne_eq_false_iff_eq]; exact hc
    | rgb l => simp only [colorLenBad, bne_eq_false_iff_eq]; exact hc
    | rgba l => simp only [colorLenBad, bne_eq_false_iff_eq]; exact hc
  have hsB : sizeLenBad s x.length = false := by
    cases s with
    | noSize => rfl
    | scalar v => rfl
    | arr l => simp only [sizeLenBad, bne_eq_false_iff_eq]; exact hs
  rw [DataPipeline.process_scatter_data.eq_def]
  rw [if_neg (by omega)]
  simp only [hcB, hsB, Bool.false_eq_true, if_false, if_pos hn, hsz, hcl, Except.map]
  rfl

/-- Witness for C7 at a 50001-point scatter input. -/
theorem c7_scatter_identical_mask_witness :
    bigX.length = bigX.length ∧
    bigColors.lengthOk bigX.length ∧
    bigSizes.lengthOk bigX.length ∧
    50000 < bigX.length ∧
    (DataPipeline.init.process_scatter_data bigX bigX bigColors bigSizes).map
        (fun r => r.2) = .ok
      { vertices := ⟨.vecs (sel (List.zipWith (fun a b => ((a, b, 0) : Vec3)) bigX bigX)
          (arange bigX.length (max 1 (bigX.length / 50000)))), "vertex"⟩,
        sizes := ⟨.scal (sel (normSizes bigX.length bigSizes)
          (arange bigX.length (max 1 (bigX.length / 50000)))), "attribute"⟩,
        colors := ⟨.cols (sel (normColors bigX.length bigColors)
          (arange bigX.length (max 1 (bigX.length / 50000)))), "attribute"⟩,
        primitive_type := "points",
        count := (sel (List.zipWith (fun a b => ((a, b, 0) : Vec3)) bigX bigX)
          (arange bigX.length (max 1 (bigX.length / 50000)))).length } := by
  have hxlen : bigX.length = 50001 := by
    rw [bigX]
    exact List.length_replicate _ _
  have hcok : bigColors.lengthOk bigX.length := by
    show (List.replicate 50001 ((1 : Scalar), 1, 1, 1)).length = bigX.length
    rw [List.length_replicate, hxlen]
  have hsok : bigSizes.lengthOk bigX.length := by
    show (List.replicate 50001 (1 : Scalar)).length = bigX.length
    rw [List.length_replicate, hxlen]
  have hbig : 50000 < bigX.length := by
    rw [hxlen]
    omega
  exact ⟨rfl, hcok, hsok, hbig,
    c7_scatter_identical_mask DataPipeline.init bigX bigX bigColors bigSizes rfl
      hcok hsok hbig⟩

end VisionEngine
